import Mathlib

/-!
Shallow embedding of the FarmGuru query submission and resilience pipeline:
the fallback resolver (`src/pages/Index.tsx` / the richer Index variant),
the remote submission client and IndexedDB logger (`src/components/QueryInput.tsx`),
the result presentation bands (`ResultCard`), the treatment recommender warning
and upload paths (`ChemRecommender`), and the routed query page (`QueryPage.tsx`).
Confidence scores are modelled as rationals; JavaScript strings as Lean strings.
-/

namespace FarmGuru

/-- A source citation as carried by a query result
(`{ title, url, snippet }` in the TypeScript interfaces). -/
structure Source where
  title : String
  url : String
  snippet : String
deriving DecidableEq, Repr

/-- The `QueryResult` interface shared by `Index`, `QueryPage` and `ResultCard`:
`{ answer, confidence, actions, sources }`. -/
structure QueryResult where
  answer : String
  confidence : ℚ
  actions : List String
  sources : List Source
deriving DecidableEq, Repr

/-- Helper for `jsIncludes`: does `sub` occur as a contiguous block of the
second list? -/
def charListIsInfixOf (sub : List Char) : List Char → Bool
  | [] => sub.isEmpty
  | c :: tail => sub.isPrefixOf (c :: tail) || charListIsInfixOf sub tail

/-- JavaScript `String.prototype.includes`: substring containment. -/
def jsIncludes (s sub : String) : Bool :=
  charListIsInfixOf sub.data s.data

/-- JavaScript `String.prototype.toLowerCase`, modelled character-wise
(structural recursion, so proofs can evaluate it on concrete strings). -/
def jsToLowerCase (s : String) : String :=
  String.mk (s.data.map Char.toLower)

/-- JavaScript `String.prototype.startsWith`, modelled structurally over the
character lists. -/
def jsStartsWith (s pre : String) : Bool :=
  pre.data.isPrefixOf s.data

/-- `mockResults['irrigation']` from `Index.tsx` (the default canned result). -/
def mockIrrigation : QueryResult :=
  { answer := "For wheat crops in winter, irrigate every 15-20 days based on soil moisture at 2-3 inch depth."
    confidence := 85/100
    actions := ["Check soil moisture", "Water early morning", "Monitor weather forecast"]
    sources :=
      [ { title := "IMD Weather Forecast"
          url := "https://mausam.imd.gov.in"
          snippet := "Minimal rainfall expected this week. Soil moisture levels dropping in Northern Plains." }
      , { title := "Agricultural Guidelines - Wheat"
          url := "https://farmer.gov.in/wheat"
          snippet := "Wheat requires 4-6 irrigations during its growth cycle, with critical stages being crown root initiation and grain filling." } ] }

/-- `mockResults['fertilizer']` from `Index.tsx`. -/
def mockFertilizer : QueryResult :=
  { answer := "Apply NPK 12:32:16 at 100kg/acre during tillering stage with organic compost."
    confidence := 78/100
    actions := ["Soil test first", "Apply in morning", "Water after application"]
    sources :=
      [ { title := "Soil Health Card"
          url := "https://soilhealth.dac.gov.in"
          snippet := "Current soil analysis shows nitrogen deficiency in your region. Phosphorus levels adequate." }
      , { title := "PM-KISAN Fertilizer Subsidy"
          url := "https://pmkisan.gov.in"
          snippet := "Eligible farmers can get subsidized fertilizer through registered dealers. Apply with Aadhaar." } ] }

/-- `mockResults['pest']` from `Index.tsx`. -/
def mockPest : QueryResult :=
  { answer := "Likely aphid infestation detected. Apply neem oil spray in evening for 3 days."
    confidence := 65/100
    actions := ["Apply neem oil", "Remove affected leaves", "Consult KVK expert"]
    sources :=
      [ { title := "Pest Management Guide"
          url := "https://agricoop.nic.in/pest"
          snippet := "Aphids are common in post-winter crops. Early detection and organic treatment prevent yield loss." }
      , { title := "PMFBY Crop Insurance"
          url := "https://pmfby.gov.in"
          snippet := "Pest damage covered under crop insurance. Report to local agriculture officer within 72 hours." } ] }

/-- The fallback branch of `handleQuery` in `Index.tsx` (and the richer Index
variant): lowercase the text, route to the pest canned result when it contains
"pest"/"insect"/"bug" or an image file accompanies the call, else to the
fertilizer result on "fertilizer"/"nutrient"/"nitrogen", else to irrigation. -/
def fallbackResolve (text : String) (imageFile : Bool) : QueryResult :=
  let lowerText := jsToLowerCase text
  if jsIncludes lowerText "pest" || jsIncludes lowerText "insect" ||
      jsIncludes lowerText "bug" || imageFile then
    mockPest
  else if jsIncludes lowerText "fertilizer" || jsIncludes lowerText "nutrient" ||
      jsIncludes lowerText "nitrogen" then
    mockFertilizer
  else
    mockIrrigation

/-- The literal string `handleRealQuery` in `QueryInput.tsx` compares the remote
answer against.  The source file holds the double-encoded bytes
U+00E2 U+20AC U+201D where an em dash (U+2014) was evidently intended. -/
def sentinelInCode : String :=
  "I don\u0027t know \u00E2\u20AC\u201D please consult a local expert."

/-- Modelled from the spec: the fixed sentinel answer of the remote query
endpoint, "I don\u0027t know \u2014 please consult a local expert." with a true em dash
(U+2014), as stated twice in the specification; the backend that emits it is
not part of this repository. -/
def sentinelSpec : String :=
  "I don\u0027t know \u2014 please consult a local expert."

/-- Outcome of the `fetch` to `/api/query` as classified by `handleRealQuery`:
a parsed result on HTTP 2xx, or a uniform failure (non-2xx, network error,
parse error all throw into the same `catch`). -/
inductive RemoteOutcome where
  | success (result : QueryResult)
  | failure
deriving DecidableEq, Repr

/-- The third argument `QueryInput` passes to `onQuery`:
`{ showHelpCard: true, result }` on the sentinel match, `{ result }` otherwise
(an absent `showHelpCard` reads back as `false` via `options.showHelpCard || false`). -/
structure QueryOptions where
  showHelpCard : Bool
  result : Option QueryResult
deriving DecidableEq, Repr

/-- One invocation of the `onQuery` callback: `(text, imageFile?, options?)`. -/
structure OnQueryCall where
  text : String
  hasImageFile : Bool
  options : Option QueryOptions
deriving DecidableEq, Repr

/-- The record `logQueryToIndexedDB` adds to the `queries` store:
`{ query, response, timestamp: new Date().toISOString(), lang: i18n.language }`. -/
structure LogEntry where
  query : String
  response : QueryResult
  timestamp : String
  lang : String
deriving DecidableEq, Repr

/-- Object-store configuration as created in the `upgrade` callback of
`openDB('FarmGuruQueries', 1, ...)`. -/
structure StoreConfig where
  keyPath : String
  autoIncrement : Bool
  indexes : List (String × String)
deriving DecidableEq, Repr

/-- `createObjectStore('queries', { keyPath: 'id', autoIncrement: true })`
plus `store.createIndex('timestamp', 'timestamp')`. -/
def queriesStoreConfig : StoreConfig :=
  { keyPath := "id", autoIncrement := true, indexes := [("timestamp", "timestamp")] }

/-- `logQueryToIndexedDB`: attempts one `db.add` of the entry; any storage
error is caught inside the function (only `console.error`), so the function is
total and returns the list of entries that actually persisted —
`[entry]` when storage works, `[]` when the write fails. -/
def logQueryToIndexedDB (storageOk : Bool) (query : String) (response : QueryResult)
    (now lang : String) : List LogEntry :=
  if storageOk then [{ query := query, response := response, timestamp := now, lang := lang }]
  else []

/-- Observable outcome of one `handleRealQuery` run: the `db.add` calls issued,
the entries that persisted, the user-facing toasts raised, and the `onQuery`
call delivered to the page. -/
structure HandleRealQueryOutcome where
  logAttempted : List LogEntry
  logPersisted : List LogEntry
  toasts : List String
  call : OnQueryCall
deriving DecidableEq, Repr

/-- `handleRealQuery(queryText, imageId?)` from `QueryInput.tsx`, with the time,
language, storage health and remote outcome made explicit parameters.
On remote success it logs the (query, result) pair once and delivers
`onQuery(queryText, undefined, { showHelpCard: true, result })` when the answer
equals the in-code sentinel, else `onQuery(queryText, undefined, { result })`.
On any failure it logs nothing and delivers
`onQuery(queryText, imageId ? new File([], 'image') : undefined)`. -/
def handleRealQuery (storageOk : Bool) (now lang : String) (queryText : String)
    (imageId : Option String) (remote : RemoteOutcome) : HandleRealQueryOutcome :=
  match remote with
  | .success r =>
    { logAttempted := [{ query := queryText, response := r, timestamp := now, lang := lang }]
      logPersisted := logQueryToIndexedDB storageOk queryText r now lang
      toasts := []
      call :=
        if r.answer == sentinelInCode then
          { text := queryText, hasImageFile := false
            options := some { showHelpCard := true, result := some r } }
        else
          { text := queryText, hasImageFile := false
            options := some { showHelpCard := false, result := some r } } }
  | .failure =>
    { logAttempted := []
      logPersisted := []
      toasts := []
      call := { text := queryText, hasImageFile := imageId.isSome, options := none } }

/-- The page-level state touched by `handleQuery` in the richer Index variant:
the current result slot and the expert help-card flag. -/
structure IndexState where
  result : Option QueryResult
  showHelpCard : Bool
deriving DecidableEq, Repr

/-- `handleQuery(text, imageFile?, options?)` of the richer Index variant:
when `options?.result` is present, install it and set the help-card flag to
`options.showHelpCard || false`; otherwise run the keyword fallback, install its
result, and leave the help-card flag untouched. -/
def indexHandleQuery (s : IndexState) (text : String) (imageFile : Bool)
    (options : Option QueryOptions) : IndexState :=
  match options with
  | some o =>
    match o.result with
    | some r => { result := some r, showHelpCard := o.showHelpCard }
    | none => { result := some (fallbackResolve text imageFile), showHelpCard := s.showHelpCard }
  | none => { result := some (fallbackResolve text imageFile), showHelpCard := s.showHelpCard }

/-- `getConfidenceText` from `ResultCard`: the translation key of the displayed
confidence band. -/
def getConfidenceText (confidence : ℚ) : String :=
  if confidence ≥ 7/10 then "confidence.high"
  else if confidence ≥ 4/10 then "confidence.medium"
  else "confidence.low"

/-- `getConfidenceColor` from `ResultCard`: the visual-treatment class of the
displayed confidence band. -/
def getConfidenceColor (confidence : ℚ) : String :=
  if confidence ≥ 7/10 then "bg-gradient-confidence-high"
  else if confidence ≥ 4/10 then "bg-gradient-confidence-medium"
  else "bg-gradient-confidence-low"

/-- `showWarning` from `ChemRecommender`: the expert-consultation warning is
shown when the recommendation confidence is strictly below 0.6. -/
def chemShowWarning (confidence : ℚ) : Bool :=
  decide (confidence < 6/10)

/-- A selected browser `File`: MIME type, size in bytes, and name. -/
structure JsFile where
  type : String
  size : Nat
  name : String
deriving DecidableEq, Repr

/-- Result of the client-side validation in `handleImageUpload`: either an
immediate rejection toast (no upload, no network call) or handoff to the
upload routine. -/
inductive UploadDecision where
  | rejectedInvalidType (msg : String)
  | rejectedTooLarge (msg : String)
  | proceedToUpload
deriving DecidableEq, Repr

/-- `handleImageUpload` from `QueryInput.tsx`: reject non-`image/*` MIME types
with the `image.invalidType` message, then reject files over 5 MB with the
`image.tooLarge` message, else call `uploadImageToSupabase`. -/
def handleImageUpload (file : JsFile) : UploadDecision :=
  if !(jsStartsWith file.type "image/") then
    .rejectedInvalidType "image.invalidType"
  else if file.size > 5 * 1024 * 1024 then
    .rejectedTooLarge "image.tooLarge"
  else
    .proceedToUpload

/-- The `fileName` both upload sites build: `Date.now() + '-' + file.name`. -/
def uploadFileName (nowMs : Nat) (file : JsFile) : String :=
  toString nowMs ++ "-" ++ file.name

/-- The `filePath` used by `uploadImageToSupabase` in `QueryInput.tsx`:
the fixed `uploads/` prefix. -/
def queryInputFilePath (nowMs : Nat) (file : JsFile) : String :=
  "uploads/" ++ uploadFileName nowMs file

/-- The `filePath` used by `handleImageUpload` in `ChemRecommender`:
`userId/fileName` when a user id is available, else `anonymous/fileName`. -/
def chemFilePath (userId : Option String) (nowMs : Nat) (file : JsFile) : String :=
  match userId with
  | some uid => uid ++ "/" ++ uploadFileName nowMs file
  | none => "anonymous/" ++ uploadFileName nowMs file

/-- After a successful upload `QueryInput` continues with
`handleRealQuery(t('image.analyzing'), publicUrl)`: the pair
(query text, image handle) of the follow-up submission. -/
def queryInputUploadContinuation (publicUrl : String) : String × Option String :=
  ("image.analyzing", some publicUrl)

/-- After a successful upload `ChemRecommender` continues with
`getRecommendation('Image analysis for crop disease detection', publicUrl)`. -/
def chemUploadContinuation (publicUrl : String) : String × Option String :=
  ("Image analysis for crop disease detection", some publicUrl)

/-- The options type accepted by `handleQuery` on `QueryPage.tsx` is
`{ result?: QueryResult }`; at runtime the input component may still attach a
`showHelpCard` property, which the page never reads. -/
structure QueryPageOptions where
  result : Option QueryResult
  showHelpCard : Bool
deriving DecidableEq, Repr

/-- The fixed simulated-latency constant of `QueryPage.tsx`:
`await new Promise(r => setTimeout(r, 600))`. -/
def queryPageDelayMs : Nat := 600

/-- The deterministic mock result `QueryPage.tsx` fabricates when no
remote-supplied result is attached to the submission. -/
def queryPageMock (text : String) : QueryResult :=
  { answer := "Answer for: " ++ text
    confidence := 7/10
    actions := ["Check soil moisture", "Review weather", "Plan irrigation"]
    sources :=
      [ { title := "IMD"
          url := "https://mausam.imd.gov.in"
          snippet := "Official weather service" } ] }

/-- `handleQuery` from `QueryPage.tsx`: install `options.result` when present,
otherwise the fixed mock built from the text alone; the image argument is
ignored (`_imageFile`) and no help-card state exists on this page. -/
def queryPageHandleQuery (text : String) (_imageFile : Bool)
    (options : Option QueryPageOptions) : Option QueryResult :=
  match options with
  | some o =>
    match o.result with
    | some r => some r
    | none => some (queryPageMock text)
  | none => some (queryPageMock text)

/-! ## Claim theorems -/

/-- C1: for every submission whose remote call fails, the fallback resolver
picks the canned result by case analysis on the lowercased query text — the
"pest" result (confidence 0.65) when the text contains "pest", "insect" or
"bug" or an image accompanies the submission; else the "fertilizer" result
(confidence 0.78) on "fertilizer", "nutrient" or "nitrogen"; else the
"irrigation" result (confidence 0.85). -/
theorem c1_fallback_resolver_case_analysis (text : String) (hasImage : Bool) :
    ((jsIncludes (jsToLowerCase text) "pest" || jsIncludes (jsToLowerCase text) "insect" ||
        jsIncludes (jsToLowerCase text) "bug" || hasImage) = true →
      fallbackResolve text hasImage = mockPest ∧
        (fallbackResolve text hasImage).confidence = 65/100) ∧
    ((jsIncludes (jsToLowerCase text) "pest" || jsIncludes (jsToLowerCase text) "insect" ||
        jsIncludes (jsToLowerCase text) "bug" || hasImage) = false →
      (jsIncludes (jsToLowerCase text) "fertilizer" || jsIncludes (jsToLowerCase text) "nutrient" ||
        jsIncludes (jsToLowerCase text) "nitrogen") = true →
      fallbackResolve text hasImage = mockFertilizer ∧
        (fallbackResolve text hasImage).confidence = 78/100) ∧
    ((jsIncludes (jsToLowerCase text) "pest" || jsIncludes (jsToLowerCase text) "insect" ||
        jsIncludes (jsToLowerCase text) "bug" || hasImage) = false →
      (jsIncludes (jsToLowerCase text) "fertilizer" || jsIncludes (jsToLowerCase text) "nutrient" ||
        jsIncludes (jsToLowerCase text) "nitrogen") = false →
      fallbackResolve text hasImage = mockIrrigation ∧
        (fallbackResolve text hasImage).confidence = 85/100) := by
  refine ⟨fun h => ?_, fun h1 h2 => ?_, fun h1 h2 => ?_⟩
  · have e : fallbackResolve text hasImage = mockPest := by
      simp [fallbackResolve, h]
    exact ⟨e, by rw [e]; rfl⟩
  · have e : fallbackResolve text hasImage = mockFertilizer := by
      simp [fallbackResolve, h1, h2]
    exact ⟨e, by rw [e]; rfl⟩
  · have e : fallbackResolve text hasImage = mockIrrigation := by
      simp [fallbackResolve, h1, h2]
    exact ⟨e, by rw [e]; rfl⟩

/-- C1 witness: the three branches at concrete inputs. -/
theorem c1_fallback_resolver_case_analysis_witness :
    fallbackResolve "Leaf spots with insects" false = mockPest ∧
    fallbackResolve "Need fertilizer advice" false = mockFertilizer ∧
    fallbackResolve "When to irrigate" false = mockIrrigation :=
  ⟨((c1_fallback_resolver_case_analysis "Leaf spots with insects" false).1 (by decide)).1,
   ((c1_fallback_resolver_case_analysis "Need fertilizer advice" false).2.1
      (by decide) (by decide)).1,
   ((c1_fallback_resolver_case_analysis "When to irrigate" false).2.2
      (by decide) (by decide)).1⟩

/-- C2 counterexample: a query resolved through the fallback path after a
remote failure appends no log entry at all, although the query does resolve to
a presented result — refuting the claim that every resolved query (success or
fallback) appends exactly one LogEntry. -/
theorem c2_log_append_counterexample :
    (handleRealQuery true "2025-01-01T00:00:00.000Z" "en" "when to irrigate" none
        RemoteOutcome.failure).logAttempted.length = 0 ∧
    (indexHandleQuery { result := none, showHelpCard := false }
        (handleRealQuery true "2025-01-01T00:00:00.000Z" "en" "when to irrigate" none
          RemoteOutcome.failure).call.text
        (handleRealQuery true "2025-01-01T00:00:00.000Z" "en" "when to irrigate" none
          RemoteOutcome.failure).call.hasImageFile
        (handleRealQuery true "2025-01-01T00:00:00.000Z" "en" "when to irrigate" none
          RemoteOutcome.failure).call.options).result.isSome = true :=
  ⟨rfl, rfl⟩

/-- C2 amended: exactly one LogEntry — holding the query, the result, the
timestamp and the language tag — is appended per remote-successful query
(persisted when storage is available), to a store keyed by auto-increment and
indexed by timestamp; a query resolved by the fallback after a remote failure
appends none. -/
theorem c2_log_append_amended (storageOk : Bool) (now lang q : String) (img : Option String)
    (r : QueryResult) :
    (handleRealQuery storageOk now lang q img (RemoteOutcome.success r)).logAttempted =
      [{ query := q, response := r, timestamp := now, lang := lang }] ∧
    (storageOk = true →
      (handleRealQuery storageOk now lang q img (RemoteOutcome.success r)).logPersisted =
        [{ query := q, response := r, timestamp := now, lang := lang }]) ∧
    (storageOk = false →
      (handleRealQuery storageOk now lang q img (RemoteOutcome.success r)).logPersisted = []) ∧
    (handleRealQuery storageOk now lang q img RemoteOutcome.failure).logAttempted = [] ∧
    (handleRealQuery storageOk now lang q img RemoteOutcome.failure).logPersisted = [] ∧
    queriesStoreConfig.autoIncrement = true ∧
    queriesStoreConfig.indexes = [("timestamp", "timestamp")] := by
  refine ⟨rfl, fun h => ?_, fun h => ?_, rfl, rfl, rfl, rfl⟩
  · subst h; rfl
  · subst h; rfl

/-- C2 amended witness: the success-path log at concrete inputs, with storage
healthy and with storage failing. -/
theorem c2_log_append_amended_witness :
    (handleRealQuery true "t0" "en" "q0" none (RemoteOutcome.success mockPest)).logPersisted =
      [{ query := "q0", response := mockPest, timestamp := "t0", lang := "en" }] ∧
    (handleRealQuery false "t0" "en" "q0" none (RemoteOutcome.success mockPest)).logPersisted =
      [] :=
  ⟨(c2_log_append_amended true "t0" "en" "q0" none mockPest).2.1 rfl,
   (c2_log_append_amended false "t0" "en" "q0" none mockPest).2.2.1 rfl⟩

/-- C3 counterexample: a remote-resolved result with confidence 0.3 (below the
claimed 0.6 threshold) and a non-sentinel answer is presented with the
escalation help card suppressed — refuting "surfaced if and only if confidence
is strictly below 0.6 or the sentinel tag is present". -/
theorem c3_escalation_counterexample :
    ((3 : ℚ)/10 < 6/10) ∧
    (indexHandleQuery { result := none, showHelpCard := false }
        (handleRealQuery true "t0" "en" "q0" none
          (RemoteOutcome.success
            { answer := "Test answer", confidence := 3/10, actions := [],
              sources := [] })).call.text
        (handleRealQuery true "t0" "en" "q0" none
          (RemoteOutcome.success
            { answer := "Test answer", confidence := 3/10, actions := [],
              sources := [] })).call.hasImageFile
        (handleRealQuery true "t0" "en" "q0" none
          (RemoteOutcome.success
            { answer := "Test answer", confidence := 3/10, actions := [],
              sources := [] })).call.options).showHelpCard = false := by
  exact ⟨by norm_num, rfl⟩

/-- C3 amended: in the query pipeline the escalation help card is surfaced
exactly when the remote-supplied answer equals the in-code sentinel string,
independently of the confidence value; the treatment recommender separately
surfaces its consult-an-expert warning exactly when its recommendation
confidence is strictly below 0.6. -/
theorem c3_escalation_amended (s : IndexState) (storageOk : Bool) (now lang q : String)
    (img : Option String) (r : QueryResult) (c : ℚ) :
    (indexHandleQuery s
        (handleRealQuery storageOk now lang q img (RemoteOutcome.success r)).call.text
        (handleRealQuery storageOk now lang q img (RemoteOutcome.success r)).call.hasImageFile
        (handleRealQuery storageOk now lang q img
          (RemoteOutcome.success r)).call.options).showHelpCard =
      (r.answer == sentinelInCode) ∧
    (chemShowWarning c = true ↔ c < 6/10) := by
  constructor
  · cases h : r.answer == sentinelInCode <;> simp [handleRealQuery, indexHandleQuery, h]
  · simp [chemShowWarning]

/-- C3 amended witness: the recommender warning fires at 0.39 and at 0.45, and
the concrete low-confidence remote result from the counterexample shows no
help card. -/
theorem c3_escalation_amended_witness :
    chemShowWarning (39/100) = true ∧ chemShowWarning (45/100) = true :=
  ⟨(c3_escalation_amended { result := none, showHelpCard := false } true "t0" "en" "q0" none
      mockPest (39/100)).2.mpr (by norm_num),
   (c3_escalation_amended { result := none, showHelpCard := false } true "t0" "en" "q0" none
      mockPest (45/100)).2.mpr (by norm_num)⟩

/-- C4: evaluation at the failing input. The sentinel the specification fixes
(with an em dash, U+2014) differs from the double-encoded literal the code
compares against (U+00E2 U+20AC U+201D), so a remote answer equal to the
specified sentinel is NOT tagged for escalation (help card flag false), while
only the mojibake string is. -/
theorem c4_sentinel_encoding_divergence :
    sentinelSpec ≠ sentinelInCode ∧
    ((handleRealQuery true "t0" "en" "q0" none
        (RemoteOutcome.success
          { answer := sentinelSpec, confidence := 9/10, actions := [],
            sources := [] })).call.options.map (fun o => o.showHelpCard)) = some false ∧
    ((handleRealQuery true "t0" "en" "q0" none
        (RemoteOutcome.success
          { answer := sentinelInCode, confidence := 9/10, actions := [],
            sources := [] })).call.options.map (fun o => o.showHelpCard)) = some true :=
  ⟨by decide, rfl, rfl⟩

/-- Band characterisation of `getConfidenceText`, high case. -/
theorem getConfidenceText_high_iff (c : ℚ) :
    getConfidenceText c = "confidence.high" ↔ 7/10 ≤ c := by
  unfold getConfidenceText
  split_ifs with h1 h2
  · simp [h1]
  · constructor
    · intro h; exact absurd h (by decide)
    · intro h; exact absurd h h1
  · constructor
    · intro h; exact absurd h (by decide)
    · intro h; exact absurd h h1

/-- Band characterisation of `getConfidenceText`, medium case. -/
theorem getConfidenceText_medium_iff (c : ℚ) :
    getConfidenceText c = "confidence.medium" ↔ 4/10 ≤ c ∧ c < 7/10 := by
  unfold getConfidenceText
  split_ifs with h1 h2
  · constructor
    · intro h; exact absurd h (by decide)
    · rintro ⟨_, h7⟩; exact absurd h1 (not_le.mpr h7)
  · exact ⟨fun _ => ⟨h2, lt_of_not_ge h1⟩, fun _ => rfl⟩
  · constructor
    · intro h; exact absurd h (by decide)
    · rintro ⟨h4, _⟩; exact absurd h4 h2

/-- Band characterisation of `getConfidenceText`, low case. -/
theorem getConfidenceText_low_iff (c : ℚ) :
    getConfidenceText c = "confidence.low" ↔ c < 4/10 := by
  unfold getConfidenceText
  split_ifs with h1 h2
  · constructor
    · intro h; exact absurd h (by decide)
    · intro h; exact absurd (le_trans (by norm_num) h1) (not_le.mpr h)
  · constructor
    · intro h; exact absurd h (by decide)
    · intro h; exact absurd h2 (not_le.mpr h)
  · exact ⟨fun _ => lt_of_not_ge h2, fun _ => rfl⟩

/-- Band characterisation of `getConfidenceColor`, high case. -/
theorem getConfidenceColor_high_iff (c : ℚ) :
    getConfidenceColor c = "bg-gradient-confidence-high" ↔ 7/10 ≤ c := by
  unfold getConfidenceColor
  split_ifs with h1 h2
  · simp [h1]
  · constructor
    · intro h; exact absurd h (by decide)
    · intro h; exact absurd h h1
  · constructor
    · intro h; exact absurd h (by decide)
    · intro h; exact absurd h h1

/-- Band characterisation of `getConfidenceColor`, medium case. -/
theorem getConfidenceColor_medium_iff (c : ℚ) :
    getConfidenceColor c = "bg-gradient-confidence-medium" ↔ 4/10 ≤ c ∧ c < 7/10 := by
  unfold getConfidenceColor
  split_ifs with h1 h2
  · constructor
    · intro h; exact absurd h (by decide)
    · rintro ⟨_, h7⟩; exact absurd h1 (not_le.mpr h7)
  · exact ⟨fun _ => ⟨h2, lt_of_not_ge h1⟩, fun _ => rfl⟩
  · constructor
    · intro h; exact absurd h (by decide)
    · rintro ⟨h4, _⟩; exact absurd h4 h2

/-- Band characterisation of `getConfidenceColor`, low case. -/
theorem getConfidenceColor_low_iff (c : ℚ) :
    getConfidenceColor c = "bg-gradient-confidence-low" ↔ c < 4/10 := by
  unfold getConfidenceColor
  split_ifs with h1 h2
  · constructor
    · intro h; exact absurd h (by decide)
    · intro h; exact absurd (le_trans (by norm_num) h1) (not_le.mpr h)
  · constructor
    · intro h; exact absurd h (by decide)
    · intro h; exact absurd h2 (not_le.mpr h)
  · exact ⟨fun _ => lt_of_not_ge h2, fun _ => rfl⟩

/-- C5: the displayed confidence band is "high" iff c ≥ 0.7, "medium" iff
0.4 ≤ c < 0.7 and "low" iff c < 0.4 (each lower bound inclusive), and the
three bands carry pairwise distinct visual treatment classes aligned with the
same thresholds. -/
theorem c5_confidence_banding (c : ℚ) :
    (getConfidenceText c = "confidence.high" ↔ 7/10 ≤ c) ∧
    (getConfidenceText c = "confidence.medium" ↔ 4/10 ≤ c ∧ c < 7/10) ∧
    (getConfidenceText c = "confidence.low" ↔ c < 4/10) ∧
    (getConfidenceColor c = "bg-gradient-confidence-high" ↔ 7/10 ≤ c) ∧
    (getConfidenceColor c = "bg-gradient-confidence-medium" ↔ 4/10 ≤ c ∧ c < 7/10) ∧
    (getConfidenceColor c = "bg-gradient-confidence-low" ↔ c < 4/10) ∧
    ("bg-gradient-confidence-high" : String) ≠ "bg-gradient-confidence-medium" ∧
    ("bg-gradient-confidence-high" : String) ≠ "bg-gradient-confidence-low" ∧
    ("bg-gradient-confidence-medium" : String) ≠ "bg-gradient-confidence-low" :=
  ⟨getConfidenceText_high_iff c, getConfidenceText_medium_iff c, getConfidenceText_low_iff c,
   getConfidenceColor_high_iff c, getConfidenceColor_medium_iff c, getConfidenceColor_low_iff c,
   by decide, by decide, by decide⟩

/-- C5 witness: 0.85 maps to high, 0.5 to medium, 0.3 to low. -/
theorem c5_confidence_banding_witness :
    getConfidenceText (85/100) = "confidence.high" ∧
    getConfidenceText (5/10) = "confidence.medium" ∧
    getConfidenceText (3/10) = "confidence.low" :=
  ⟨(c5_confidence_banding (85/100)).1.mpr (by norm_num),
   (c5_confidence_banding (5/10)).2.1.mpr (by constructor <;> norm_num),
   (c5_confidence_banding (3/10)).2.2.1.mpr (by norm_num)⟩

/-- C6: a selected file whose MIME type is not in the image family is rejected
with the invalid-type message, an image file over 5 MB is rejected with the
distinct too-large message — in both cases before any upload attempt — and an
image file of at most 5 MB proceeds to upload. -/
theorem c6_image_validation (f : JsFile) :
    (jsStartsWith f.type "image/" = false →
      handleImageUpload f = UploadDecision.rejectedInvalidType "image.invalidType") ∧
    (jsStartsWith f.type "image/" = true → f.size > 5 * 1024 * 1024 →
      handleImageUpload f = UploadDecision.rejectedTooLarge "image.tooLarge") ∧
    (jsStartsWith f.type "image/" = true → f.size ≤ 5 * 1024 * 1024 →
      handleImageUpload f = UploadDecision.proceedToUpload) ∧
    ("image.invalidType" : String) ≠ "image.tooLarge" := by
  refine ⟨fun h => ?_, fun h1 h2 => ?_, fun h1 h2 => ?_, by decide⟩
  · simp [handleImageUpload, h]
  · simp [handleImageUpload, h1, h2]
  · have h3 : ¬(f.size > 5 * 1024 * 1024) := by omega
    simp [handleImageUpload, h1, h3]

/-- C6 witness: a PDF is rejected as invalid type, a 6 MB image as too large,
and a small image proceeds. -/
theorem c6_image_validation_witness :
    handleImageUpload { type := "application/pdf", size := 1000, name := "a.pdf" } =
      UploadDecision.rejectedInvalidType "image.invalidType" ∧
    handleImageUpload { type := "image/png", size := 6 * 1024 * 1024, name := "b.png" } =
      UploadDecision.rejectedTooLarge "image.tooLarge" ∧
    handleImageUpload { type := "image/png", size := 1000, name := "c.png" } =
      UploadDecision.proceedToUpload :=
  ⟨(c6_image_validation { type := "application/pdf", size := 1000, name := "a.pdf" }).1
      (by decide),
   (c6_image_validation { type := "image/png", size := 6 * 1024 * 1024, name := "b.png" }).2.1
      (by decide) (by decide),
   (c6_image_validation { type := "image/png", size := 1000, name := "c.png" }).2.2.1
      (by decide) (by decide)⟩

/-- C7: a failed durable-log write is swallowed — the `onQuery` call delivered
to the page is identical to the one delivered when the write succeeds, no toast
is raised, and the page still presents the remote result (the submission is not
rerouted to the fallback branch). -/
theorem c7_log_failure_swallowed (now lang q : String) (img : Option String) (r : QueryResult)
    (s : IndexState) :
    (handleRealQuery false now lang q img (RemoteOutcome.success r)).call =
      (handleRealQuery true now lang q img (RemoteOutcome.success r)).call ∧
    (handleRealQuery false now lang q img (RemoteOutcome.success r)).toasts = [] ∧
    (indexHandleQuery s
        (handleRealQuery false now lang q img (RemoteOutcome.success r)).call.text
        (handleRealQuery false now lang q img (RemoteOutcome.success r)).call.hasImageFile
        (handleRealQuery false now lang q img
          (RemoteOutcome.success r)).call.options).result = some r := by
  refine ⟨rfl, rfl, ?_⟩
  cases h : r.answer == sentinelInCode <;> simp [handleRealQuery, indexHandleQuery, h]

/-- C8 counterexample: the successful upload in `QueryInput` stores the asset
under the fixed `uploads/` namespace — a path namespaced neither by a user
identifier nor by the anonymous namespace — refuting the universal claim. -/
theorem c8_upload_namespace_counterexample :
    queryInputFilePath 1734000000000 { type := "image/png", size := 1000, name := "leaf.png" } =
      "uploads/1734000000000-leaf.png" ∧
    jsStartsWith
      (queryInputFilePath 1734000000000 { type := "image/png", size := 1000, name := "leaf.png" })
      "anonymous/" = false := by
  exact ⟨by decide, by decide⟩

/-- C8 amended: the treatment recommender's upload is namespaced by the user
identifier when one is supplied and by the anonymous namespace otherwise, while
`QueryInput`'s upload always uses the fixed `uploads/` namespace; in both
components a successful upload continues with the returned public URL as the
image handle together with a placeholder analyzing text. -/
theorem c8_upload_namespace_amended (uid : String) (nowMs : Nat) (f : JsFile) (url : String) :
    (∃ rest, chemFilePath (some uid) nowMs f = uid ++ "/" ++ rest) ∧
    (∃ rest, chemFilePath none nowMs f = "anonymous/" ++ rest) ∧
    (∃ rest, queryInputFilePath nowMs f = "uploads/" ++ rest) ∧
    queryInputUploadContinuation url = ("image.analyzing", some url) ∧
    chemUploadContinuation url = ("Image analysis for crop disease detection", some url) :=
  ⟨⟨uploadFileName nowMs f, rfl⟩, ⟨uploadFileName nowMs f, rfl⟩,
   ⟨uploadFileName nowMs f, rfl⟩, rfl, rfl⟩

/-- C9: on the routed query page, any submission that carries no remote result
resolves (after the fixed 600 ms simulated delay) to the fixed mock — answer
"Answer for: " ++ text, confidence 0.7, exactly three actions and one source —
independent of keywords or image presence, and any help-card flag attached by
the input component is discarded. -/
theorem c9_query_page_fixed_fallback (text : String) (img1 img2 flag1 flag2 : Bool)
    (res : Option QueryResult) :
    queryPageHandleQuery text img1 (some { result := none, showHelpCard := flag1 }) =
      some (queryPageMock text) ∧
    queryPageHandleQuery text img1 none = some (queryPageMock text) ∧
    queryPageHandleQuery text img1 (some { result := res, showHelpCard := flag1 }) =
      queryPageHandleQuery text img2 (some { result := res, showHelpCard := flag2 }) ∧
    (queryPageMock text).answer = "Answer for: " ++ text ∧
    (queryPageMock text).confidence = 7/10 ∧
    (queryPageMock text).actions.length = 3 ∧
    (queryPageMock text).sources.length = 1 ∧
    queryPageDelayMs = 600 := by
  refine ⟨rfl, rfl, ?_, rfl, rfl, rfl, rfl, rfl⟩
  cases res <;> rfl

/-- C10: the help-card flag is written only on the branch that receives a
remote-supplied result; a submission resolved through the keyword fallback
leaves the flag unchanged (so an earlier raised card stays visible next to the
new fallback result), and a later remote-resolved submission overwrites it. -/
theorem c10_help_card_frame (s : IndexState) (text : String) (img flag : Bool)
    (r : QueryResult) :
    (indexHandleQuery s text img none).showHelpCard = s.showHelpCard ∧
    (indexHandleQuery s text img (some { showHelpCard := flag, result := none })).showHelpCard =
      s.showHelpCard ∧
    (indexHandleQuery s text img none).result = some (fallbackResolve text img) ∧
    (indexHandleQuery s text img (some { showHelpCard := flag, result := some r })).showHelpCard =
      flag :=
  ⟨rfl, rfl, rfl, rfl⟩

end FarmGuru
